import Mathlib

/-!
Shallow embedding of the unified-agent Temporal workflow.

The repository has two variants of the same workflow:
* `WorkflowA` embeds `src/unified_agent/workflow.py` (the variant with an
  explicit retry policy of 5 attempts on `restart` and an explicit
  "Skipped unknown operation" entry for unrecognized segments);
* `WorkflowB` embeds `src/src/unified_agent/workflow.py` (no explicit retry
  policy on `restart`; an unrecognized segment leaves the Python `result`
  variable at `None`, which `str(result)` renders as `"None"`).

External activity handlers (the Docker and utility activities) are modelled
as an abstract environment mapping a handler identifier and its arguments to
either returned text or a raised error message; the dispatch configuration
(arguments, timeout seconds, explicit retry attempts) is recorded in an
`ActivityCall` value read off the corresponding `workflow.execute_activity`
call in the source.  The restart activity body from
`src/src/providers/infra_monitor/docker_temporal_agent.py` is embedded
separately as `restart_container_activity`.
-/

namespace UnifiedAgent

/-- Identifier of an external activity handler registered with the worker. -/
inductive HandlerId
  | containerStatus
  | containerHealth
  | containerLogs
  | containerRestart
  | timeUtil
  | weatherUtil
  | factUtil
deriving DecidableEq

/-- One `workflow.execute_activity(...)` invocation as configured by the
dispatcher: the handler, its string argument (`param1`, possibly absent), the
integer line-count argument (only used by the logs handler), the
`start_to_close_timeout` in seconds, and the `maximum_attempts` of the
explicitly passed `RetryPolicy`, `none` when the source passes no
`retry_policy` argument. -/
structure ActivityCall where
  handler : HandlerId
  arg1 : Option String
  lines : Option Int
  timeoutSec : Nat
  retryMax : Option Nat
deriving DecidableEq

/-- What one iteration of the dispatch `try:` body does before any result is
appended: invoke an external activity, fall through to the unknown-operation
branch, or raise an exception (the only pre-dispatch raise is the `int(...)`
coercion in the logs branch). -/
inductive StepEvent
  | call (c : ActivityCall)
  | skip
  | raised (msg : String)
deriving DecidableEq

/-- Python `str.split(sep)` for a one-character separator, over the character
list: splitting the empty string yields one empty group, and a trailing
separator yields a trailing empty group, exactly as in CPython. -/
def splitOnChar (sep : Char) : List Char → List (List Char)
  | [] => [[]]
  | c :: cs =>
    if c = sep then [] :: splitOnChar sep cs
    else
      match splitOnChar sep cs with
      | [] => [[c]]
      | g :: gs => (c :: g) :: gs

/-- Python `str.strip()` over the character list: drop leading and trailing
whitespace.  (Only ASCII whitespace is modelled; no claim depends on the
wider Unicode whitespace classes CPython also strips.) -/
def stripChars (cs : List Char) : List Char :=
  (((cs.dropWhile Char.isWhitespace).reverse).dropWhile Char.isWhitespace).reverse

/-- Python `str.split(sep)` at the string level. -/
def pySplit (sep : Char) (s : String) : List String :=
  (splitOnChar sep s.toList).map (fun g => String.mk g)

/-- Python `str.strip()` at the string level. -/
def pyStrip (s : String) : String :=
  String.mk (stripChars s.toList)

/-- Python `str.lower()` at the string level.  (ASCII case folding; the
operation tokens compared against are all ASCII.) -/
def pyLower (s : String) : String :=
  String.mk (s.toList.map Char.toLower)

/-- Python truthiness of an optional string (`if param:`): present and
non-empty. -/
def truthy : Option String → Bool
  | some s => !(s.toList.isEmpty)
  | none => false

/-- Decimal digits of a Python `int()` literal; `none` when empty or when a
non-digit character occurs.  (Digit-group underscores and non-ASCII digits
accepted by CPython are not modelled; no claim depends on them.) -/
def decDigits : List Char → Option Nat
  | [] => none
  | cs =>
    cs.foldl
      (fun acc c =>
        match acc with
        | none => none
        | some n => if c.isDigit then some (n * 10 + (c.toNat - 48)) else none)
      (some 0)

/-- Python `int(s)` on a string: strip surrounding whitespace, optional sign,
then decimal digits; `none` models the `ValueError` raise. -/
def pyInt (s : String) : Option Int :=
  match stripChars s.toList with
  | [] => none
  | c :: rest =>
    if c = '+' then (decDigits rest).map (fun n => (n : Int))
    else if c = '-' then (decDigits rest).map (fun n => -(n : Int))
    else (decDigits (c :: rest)).map (fun n => (n : Int))

/-- The parse of one plan segment performed at the top of the dispatch loop:
`parts = op_spec.split(':')`, `op_type = parts[0].lower()`,
`param1 = parts[1] if len(parts) > 1 else None`,
`param2 = parts[2] if len(parts) > 2 else None`. -/
structure OpSpec where
  raw : String
  opType : String
  param1 : Option String
  param2 : Option String
deriving DecidableEq

/-- Segment parsing shared verbatim by both workflow variants. -/
def parseSegment (seg : String) : OpSpec :=
  let parts := pySplit ':' seg
  ⟨seg, pyLower ((parts[0]?).getD ""), parts[1]?, parts[2]?⟩

/-- Plan parsing shared verbatim by both workflow variants:
`[op.strip() for op in plan.split(',') if op.strip()]`. -/
def parsePlan (plan : String) : List String :=
  ((pySplit ',' plan).map pyStrip).filter (fun op => !(op.toList.isEmpty))

/-- Behavior of the external activity handlers: the durable invocation of a
handler on its arguments either returns text or ends in a raised error
message (retries and timeouts exhausted are absorbed into the error case). -/
def HandlerEnv : Type :=
  HandlerId → Option String → Option Int → Except String String

end UnifiedAgent

namespace WorkflowA

open UnifiedAgent

/-- Dispatcher branch structure of `UnifiedAgentWorkflow.run` in
`src/unified_agent/workflow.py` (lines 107-128), as a function of the parsed
`op_type`, `param1`, `param2`.  The logs branch evaluates
`lines = int(param2) if param2 else 100` before invoking the activity; the
`restart` branch passes `RetryPolicy(maximum_attempts=5)`; no other branch
passes a retry policy.  `weather` and `fact` guard on `param1` truthiness and
otherwise fall to the `else` branch. -/
def stepEventCore (opType : String) (param1 param2 : Option String) : StepEvent :=
  if opType == "status" then
    .call ⟨.containerStatus, param1, none, 10, none⟩
  else if opType == "health" then
    .call ⟨.containerHealth, param1, none, 15, none⟩
  else if opType == "logs" then
    match (if truthy param2 then pyInt ((param2).getD "") else some 100) with
    | some n => .call ⟨.containerLogs, param1, some n, 10, none⟩
    | none =>
      .raised ("invalid literal for int() with base 10: '" ++ (param2).getD "" ++ "'")
  else if opType == "restart" then
    .call ⟨.containerRestart, param1, none, 30, some 5⟩
  else if opType == "time" then
    .call ⟨.timeUtil, none, none, 5, none⟩
  else if opType == "weather" && truthy param1 then
    .call ⟨.weatherUtil, param1, none, 10, none⟩
  else if opType == "fact" && truthy param1 then
    .call ⟨.factUtil, param1, none, 20, none⟩
  else
    .skip

/-- The dispatch event of one raw segment. -/
def stepEventOf (seg : String) : StepEvent :=
  let p := parseSegment seg
  stepEventCore p.opType p.param1 p.param2

/-- One iteration of the step loop: the string appended to `results` for the
segment `seg`.  The unknown-operation branch appends
`f"Skipped unknown operation: {op_spec}"`; a raised exception is caught and
appended as `f"❌ Step '{op_spec}' failed: {e}"`. -/
def execStep (env : HandlerEnv) (seg : String) : String :=
  match stepEventOf seg with
  | .skip => "Skipped unknown operation: " ++ seg
  | .raised m => "❌ Step '" ++ seg ++ "' failed: " ++ m
  | .call c =>
    match env c.handler c.arg1 c.lines with
    | .ok t => t
    | .error m => "❌ Step '" ++ seg ++ "' failed: " ++ m

/-- The `results` list built by the step loop: starts empty, appends exactly
one entry per iteration. -/
def stepResults (env : HandlerEnv) (ops : List String) : List String :=
  ops.foldl (fun results op_spec => results ++ [execStep env op_spec]) []

/-- `unified_orchestrator_activity`: wraps the LLM planner call; its
`except:` branch returns the fallback plan `"status"`; on success it returns
the stripped plan text. -/
def unified_orchestrator_activity (plannerResult : Except String String) : String :=
  match plannerResult with
  | .ok r => pyStrip r
  | .error _ => "status"

/-- The report for a given plan text: `"\n\n".join(results)`. -/
def report (env : HandlerEnv) (plan : String) : String :=
  String.intercalate "\n\n" (stepResults env (parsePlan plan))

/-- `UnifiedAgentWorkflow.run`: obtain the plan from the orchestrator
activity (the LLM call's outcome is the abstract `plannerResult`), parse it,
drive the step loop, and join the results. -/
def run (env : HandlerEnv) (plannerResult : Except String String) : String :=
  report env (unified_orchestrator_activity plannerResult)

end WorkflowA

namespace WorkflowB

open UnifiedAgent

/-- Dispatcher branch structure of `UnifiedAgentWorkflow.run` in
`src/src/unified_agent/workflow.py` (lines 90-105): identical to the other
variant except that the `restart` branch passes no `retry_policy`, and there
is no `else` branch — an unrecognized segment leaves `result = None`. -/
def stepEventCore (opType : String) (param1 param2 : Option String) : StepEvent :=
  if opType == "status" then
    .call ⟨.containerStatus, param1, none, 10, none⟩
  else if opType == "health" then
    .call ⟨.containerHealth, param1, none, 15, none⟩
  else if opType == "logs" then
    match (if truthy param2 then pyInt ((param2).getD "") else some 100) with
    | some n => .call ⟨.containerLogs, param1, some n, 10, none⟩
    | none =>
      .raised ("invalid literal for int() with base 10: '" ++ (param2).getD "" ++ "'")
  else if opType == "restart" then
    .call ⟨.containerRestart, param1, none, 30, none⟩
  else if opType == "time" then
    .call ⟨.timeUtil, none, none, 5, none⟩
  else if opType == "weather" && truthy param1 then
    .call ⟨.weatherUtil, param1, none, 10, none⟩
  else if opType == "fact" && truthy param1 then
    .call ⟨.factUtil, param1, none, 20, none⟩
  else
    .skip

/-- The dispatch event of one raw segment. -/
def stepEventOf (seg : String) : StepEvent :=
  let p := parseSegment seg
  stepEventCore p.opType p.param1 p.param2

/-- One iteration of the step loop in this variant: `results.append(str(result))`
renders a fallen-through `result = None` as `"None"`; a successful activity
result (a string) passes through `str` unchanged; a raised exception is
caught and appended as `f"❌ Step '{op_spec}' failed: {e}"`. -/
def execStep (env : HandlerEnv) (seg : String) : String :=
  match stepEventOf seg with
  | .skip => "None"
  | .raised m => "❌ Step '" ++ seg ++ "' failed: " ++ m
  | .call c =>
    match env c.handler c.arg1 c.lines with
    | .ok t => t
    | .error m => "❌ Step '" ++ seg ++ "' failed: " ++ m

/-- The `results` list built by the step loop. -/
def stepResults (env : HandlerEnv) (ops : List String) : List String :=
  ops.foldl (fun results op_spec => results ++ [execStep env op_spec]) []

/-- `unified_orchestrator_activity` of this variant: the `try:` additionally
covers the imports, but the observable contract is the same — fallback plan
`"status"` on any error, stripped plan text on success. -/
def unified_orchestrator_activity (plannerResult : Except String String) : String :=
  match plannerResult with
  | .ok r => pyStrip r
  | .error _ => "status"

/-- The report for a given plan text: `"\n\n".join(results)`. -/
def report (env : HandlerEnv) (plan : String) : String :=
  String.intercalate "\n\n" (stepResults env (parsePlan plan))

/-- `UnifiedAgentWorkflow.run` of this variant. -/
def run (env : HandlerEnv) (plannerResult : Except String String) : String :=
  report env (unified_orchestrator_activity plannerResult)

end WorkflowB

namespace InfraMonitor

open UnifiedAgent

/-- Failure classes of the Docker client wrapper as distinguished by the
`except` clauses of the activities in
`src/src/providers/infra_monitor/docker_temporal_agent.py`. -/
inductive DockerFailure
  | containerNotFound (name : String)
  | connectionError (msg : String)
  | unexpected (msg : String)
deriving DecidableEq

/-- `restart_container_activity` (lines 136-162): calls
`docker_client.restart_container(container_name)` (its outcome is the
abstract `restartResult`); a `True` result returns the success text, a
`False` result returns the degraded text — both ordinary returns, no raise;
a `ContainerNotFoundError` is re-raised as a non-retryable
`ApplicationError`, a `DockerConnectionError` is re-raised as is, and any
other exception becomes a non-retryable "Unexpected error". -/
def restart_container_activity (container_name : String)
    (restartResult : Except DockerFailure Bool) : Except String String :=
  match restartResult with
  | .ok true =>
    .ok ("✓ Successfully restarted container '" ++ container_name ++ "'")
  | .ok false =>
    .ok ("Container '" ++ container_name ++ "' was restarted but may not be running properly")
  | .error (.containerNotFound n) => .error ("Container '" ++ n ++ "' not found")
  | .error (.connectionError m) => .error m
  | .error (.unexpected m) => .error ("Unexpected error: " ++ m)

end InfraMonitor

namespace UnifiedAgent

/-- Handler environment in which every activity returns the text "output". -/
def envOk : HandlerEnv := fun _ _ _ => Except.ok "output"

/-- Handler environment in which the restart activity permanently fails with
a not-found error while every other activity succeeds. -/
def envRestartFails : HandlerEnv := fun h _ _ =>
  if h == HandlerId.containerRestart then Except.error "Container 'cache' not found"
  else Except.ok "Health check for cache: healthy"

/-- Handler environment in which the restart activity is the embedded
`restart_container_activity` with the Docker client reporting an unconfirmed
restart (`restart_container` returned `False`). -/
def envRestartDegraded : HandlerEnv := fun h a _ =>
  if h == HandlerId.containerRestart then
    InfraMonitor.restart_container_activity (a.getD "") (Except.ok false)
  else Except.ok "ok"

end UnifiedAgent

open UnifiedAgent

/-- The step loop's fold appends one entry per operation, so the results
list is the image of the operation list under the step function. -/
theorem foldl_append_singleton {α β : Type} (f : α → β) (l : List α) :
    ∀ acc : List β, l.foldl (fun r a => r ++ [f a]) acc = acc ++ l.map f := by
  induction l with
  | nil => intro acc; simp
  | cons a t ih => intro acc; simp [ih]

/-- The results of variant A's step loop are exactly the per-segment step
outputs, in segment order. -/
theorem stepResultsA_eq_map (env : HandlerEnv) (ops : List String) :
    WorkflowA.stepResults env ops = ops.map (WorkflowA.execStep env) := by
  unfold WorkflowA.stepResults
  simpa using foldl_append_singleton (WorkflowA.execStep env) ops []

/-- The results of variant B's step loop are exactly the per-segment step
outputs, in segment order. -/
theorem stepResultsB_eq_map (env : HandlerEnv) (ops : List String) :
    WorkflowB.stepResults env ops = ops.map (WorkflowB.execStep env) := by
  unfold WorkflowB.stepResults
  simpa using foldl_append_singleton (WorkflowB.execStep env) ops []

/-- C1: upon completion the results sequence has the same length as the
parsed plan, and the i-th result is the outcome of executing the i-th parsed
operation, in the left-to-right order of the raw plan string — one entry per
operation, none dropped or reordered, whether the step succeeds or fails. -/
theorem c1_one_result_per_operation_in_order (env : HandlerEnv) (planText : String) :
    (WorkflowA.stepResults env (parsePlan planText)).length = (parsePlan planText).length ∧
    ∀ i : Nat,
      (WorkflowA.stepResults env (parsePlan planText))[i]? =
        ((parsePlan planText)[i]?).map (WorkflowA.execStep env) := by
  rw [stepResultsA_eq_map]
  exact ⟨by simp, fun i => by simp⟩

/-- C2: a per-step handler error is caught inside the step loop and becomes
a failure entry containing the step's segment text and the error message;
the failing step contributes exactly one entry, and every earlier and later
step of the plan still executes and contributes its own entry. -/
theorem c2_step_failure_caught_and_isolated (env : HandlerEnv) (seg : String)
    (c : ActivityCall) (m : String)
    (h1 : WorkflowA.stepEventOf seg = StepEvent.call c)
    (h2 : env c.handler c.arg1 c.lines = Except.error m)
    (pre post : List String) :
    WorkflowA.execStep env seg = "❌ Step '" ++ seg ++ "' failed: " ++ m ∧
    WorkflowA.stepResults env (pre ++ seg :: post) =
      WorkflowA.stepResults env pre ++
        ("❌ Step '" ++ seg ++ "' failed: " ++ m) :: WorkflowA.stepResults env post := by
  have hstep : WorkflowA.execStep env seg = "❌ Step '" ++ seg ++ "' failed: " ++ m := by
    unfold WorkflowA.execStep
    rw [h1]
    simp only [h2]
  refine ⟨hstep, ?_⟩
  rw [stepResultsA_eq_map, stepResultsA_eq_map, stepResultsA_eq_map,
    List.map_append, List.map_cons, hstep]

/-- C2 witness: with a permanently failing restart handler, the plan
`restart:cache, health:cache` records a failure entry naming the segment and
the error for the restart step, and still executes the following health
step. -/
theorem c2_witness :
    WorkflowA.execStep envRestartFails "restart:cache" =
      "❌ Step '" ++ "restart:cache" ++ "' failed: " ++ "Container 'cache' not found" ∧
    WorkflowA.stepResults envRestartFails ([] ++ "restart:cache" :: ["health:cache"]) =
      WorkflowA.stepResults envRestartFails [] ++
        ("❌ Step '" ++ "restart:cache" ++ "' failed: " ++ "Container 'cache' not found") ::
          WorkflowA.stepResults envRestartFails ["health:cache"] :=
  c2_step_failure_caught_and_isolated envRestartFails "restart:cache"
    ⟨.containerRestart, some "cache", none, 30, some 5⟩ "Container 'cache' not found"
    rfl rfl [] ["health:cache"]

/-- An unrecognized token, or a `weather`/`fact` segment without a truthy
first parameter, always takes the dispatcher's fall-through branch. -/
theorem stepEventCoreA_skip (t : String) (p1 p2 : Option String)
    (h : t ∉ (["status", "health", "logs", "restart", "time", "weather", "fact"] : List String) ∨
      ((t = "weather" ∨ t = "fact") ∧ truthy p1 = false)) :
    WorkflowA.stepEventCore t p1 p2 = StepEvent.skip := by
  unfold WorkflowA.stepEventCore
  rcases h with h | ⟨ht, hp⟩
  · simp only [List.mem_cons, List.not_mem_nil, or_false, not_or] at h
    obtain ⟨h1, h2, h3, h4, h5, h6, h7⟩ := h
    simp [h1, h2, h3, h4, h5, h6, h7]
  · rcases ht with ht | ht <;> subst ht <;> simp [hp]

/-- C3: a plan segment whose case-insensitively matched operation token is
not one of status, health, logs, restart, time, weather, fact — or a
weather/fact segment whose required first parameter is absent (or empty) —
invokes no external handler (the dispatch event is the fall-through, not a
call), yields the descriptive entry naming the unrecognized segment, and
does not abort the run: every other step of the plan still contributes its
own entry. -/
theorem c3_unknown_operation_reported_not_fatal (seg : String)
    (h : (parseSegment seg).opType ∉
        (["status", "health", "logs", "restart", "time", "weather", "fact"] : List String) ∨
      (((parseSegment seg).opType = "weather" ∨ (parseSegment seg).opType = "fact") ∧
        truthy (parseSegment seg).param1 = false)) :
    WorkflowA.stepEventOf seg = StepEvent.skip ∧
    ∀ env : HandlerEnv,
      WorkflowA.execStep env seg = "Skipped unknown operation: " ++ seg ∧
      ∀ pre post : List String,
        WorkflowA.stepResults env (pre ++ seg :: post) =
          WorkflowA.stepResults env pre ++
            ("Skipped unknown operation: " ++ seg) :: WorkflowA.stepResults env post := by
  have hskip : WorkflowA.stepEventOf seg = StepEvent.skip :=
    stepEventCoreA_skip (parseSegment seg).opType (parseSegment seg).param1
      (parseSegment seg).param2 h
  refine ⟨hskip, fun env => ?_⟩
  have hstep : WorkflowA.execStep env seg = "Skipped unknown operation: " ++ seg := by
    unfold WorkflowA.execStep
    rw [hskip]
  refine ⟨hstep, fun pre post => ?_⟩
  rw [stepResultsA_eq_map, stepResultsA_eq_map, stepResultsA_eq_map,
    List.map_append, List.map_cons, hstep]

/-- C3 witness: the segment `deploy:app` carries an unrecognized token; it
is skipped without any handler call, reported by name, and the neighbouring
steps of the plan `time, deploy:app, time` still execute. -/
theorem c3_witness :
    WorkflowA.stepEventOf "deploy:app" = StepEvent.skip ∧
    WorkflowA.execStep envOk "deploy:app" = "Skipped unknown operation: " ++ "deploy:app" ∧
    WorkflowA.stepResults envOk (["time"] ++ "deploy:app" :: ["time"]) =
      WorkflowA.stepResults envOk ["time"] ++
        ("Skipped unknown operation: " ++ "deploy:app") :: WorkflowA.stepResults envOk ["time"] := by
  have h := c3_unknown_operation_reported_not_fatal "deploy:app" (Or.inl (by decide))
  exact ⟨h.1, (h.2 envOk).1, (h.2 envOk).2 ["time"] ["time"]⟩

/-- C4: when the planner's LLM call fails, the orchestrator activity
substitutes the fallback plan text `"status"`; the run then proceeds and
completes with the report of that single read-only operation — the planner
failure never surfaces as a run-level failure, and the fallback plan
dispatches exactly one status query. -/
theorem c4_planner_failure_falls_back_to_status (env : HandlerEnv) (e : String) :
    WorkflowA.unified_orchestrator_activity (Except.error e) = "status" ∧
    WorkflowA.run env (Except.error e) = WorkflowA.report env "status" ∧
    parsePlan "status" = ["status"] ∧
    WorkflowA.stepEventOf "status" =
      StepEvent.call ⟨.containerStatus, none, none, 10, none⟩ ∧
    WorkflowA.report env "status" = WorkflowA.execStep env "status" := by
  refine ⟨rfl, rfl, by decide, by decide, ?_⟩
  unfold WorkflowA.report
  rw [show parsePlan "status" = ["status"] by decide, stepResultsA_eq_map]
  rfl

/-- C5 counterexample: for the segment `logs:api:abc` the non-numeric line
count does not fall back to 100 — the `int` coercion raises, the step is
recorded as a failure entry, and no logs call with line count 100 is
dispatched. -/
theorem c5_counterexample :
    WorkflowA.stepEventOf "logs:api:abc" =
      StepEvent.raised "invalid literal for int() with base 10: 'abc'" ∧
    WorkflowA.stepEventOf "logs:api:abc" ≠
      StepEvent.call ⟨.containerLogs, some "api", some 100, 10, none⟩ ∧
    WorkflowA.execStep envOk "logs:api:abc" =
      "❌ Step 'logs:api:abc' failed: invalid literal for int() with base 10: 'abc'" := by
  exact ⟨by decide, by decide, by decide⟩

/-- C5 as amended: numeric coercion of the second parameter happens at
dispatch time — `logs:api:50` dispatches the logs handler with container
`api` and integer line count 50, and a missing (or empty) line count
defaults to 100; but an unparseable line count raises at the coercion, is
caught by the per-step handler, and yields a failure entry for that step
instead of falling back to the default. -/
theorem c5_amended_numeric_coercion (env : HandlerEnv) :
    WorkflowA.stepEventOf "logs:api:50" =
      StepEvent.call ⟨.containerLogs, some "api", some 50, 10, none⟩ ∧
    WorkflowA.stepEventOf "logs:api" =
      StepEvent.call ⟨.containerLogs, some "api", some 100, 10, none⟩ ∧
    WorkflowA.stepEventOf "logs:api:" =
      StepEvent.call ⟨.containerLogs, some "api", some 100, 10, none⟩ ∧
    WorkflowA.execStep env "logs:api:abc" =
      "❌ Step '" ++ "logs:api:abc" ++ "' failed: " ++
        "invalid literal for int() with base 10: 'abc'" := by
  refine ⟨by decide, by decide, by decide, ?_⟩
  unfold WorkflowA.execStep
  rw [show WorkflowA.stepEventOf "logs:api:abc" =
    StepEvent.raised "invalid literal for int() with base 10: 'abc'" by decide]

/-- C6 counterexample: the `status` operation is not dispatched with a retry
attempt budget of 1 — the dispatch record carries no explicit retry policy
at all. -/
theorem c6_counterexample :
    WorkflowA.stepEventOf "status" =
      StepEvent.call ⟨.containerStatus, none, none, 10, none⟩ ∧
    WorkflowA.stepEventOf "status" ≠
      StepEvent.call ⟨.containerStatus, none, none, 10, some 1⟩ := by
  exact ⟨by decide, by decide⟩

/-- Across all dispatcher branches, only the restart branch records an
explicit retry policy, and it records maximum 5 attempts. -/
theorem retryBudgetsA_core (t : String) (p1 p2 : Option String) (c : ActivityCall)
    (h : WorkflowA.stepEventCore t p1 p2 = StepEvent.call c) :
    (c.handler = HandlerId.containerRestart → c.retryMax = some 5) ∧
    (c.handler ≠ HandlerId.containerRestart → c.retryMax = none) := by
  unfold WorkflowA.stepEventCore at h
  repeat' split at h
  all_goals first
    | (injection h with h2; subst h2; simp)
    | simp at h

/-- C6 as amended: the restart operation is dispatched with an explicitly
configured retry policy of maximum 5 attempts, while every other operation
is dispatched with no explicit retry policy (the execution substrate's
default applies) — restart is the only operation with an explicitly
elevated retry budget. -/
theorem c6_amended_retry_budgets (seg : String) (c : ActivityCall)
    (h : WorkflowA.stepEventOf seg = StepEvent.call c) :
    (c.handler = HandlerId.containerRestart → c.retryMax = some 5) ∧
    (c.handler ≠ HandlerId.containerRestart → c.retryMax = none) :=
  retryBudgetsA_core (parseSegment seg).opType (parseSegment seg).param1
    (parseSegment seg).param2 c h

/-- C6 witness: instantiating the retry-budget theorem at the dispatch of
`restart:db`, whose recorded call has the restart handler and maximum 5
retry attempts. -/
theorem c6_witness :
    ((⟨HandlerId.containerRestart, some "db", none, 30, some 5⟩ : ActivityCall).handler =
        HandlerId.containerRestart →
      (⟨HandlerId.containerRestart, some "db", none, 30, some 5⟩ : ActivityCall).retryMax =
        some 5) ∧
    ((⟨HandlerId.containerRestart, some "db", none, 30, some 5⟩ : ActivityCall).handler ≠
        HandlerId.containerRestart →
      (⟨HandlerId.containerRestart, some "db", none, 30, some 5⟩ : ActivityCall).retryMax =
        none) :=
  c6_amended_retry_budgets "restart:db"
    ⟨HandlerId.containerRestart, some "db", none, 30, some 5⟩ (by decide)

/-- C7: parsing is total over all plan texts — it yields as many operations
as there are non-empty whitespace-trimmed comma-separated segments; an empty
or all-whitespace plan text yields an empty plan, and an empty plan yields
an empty report string, the run completing without error (the run function
is total and returns a string in every case). -/
theorem c7_parse_total_empty_plan_empty_report :
    (∀ planText : String,
      (parsePlan planText).length =
        ((pySplit ',' planText).map pyStrip).countP (fun op => !(op.toList.isEmpty))) ∧
    parsePlan "" = [] ∧
    (∀ planText : String,
      (∀ s ∈ pySplit ',' planText, pyStrip s = "") → parsePlan planText = []) ∧
    (∀ env : HandlerEnv, WorkflowA.report env "" = "") ∧
    (∀ env : HandlerEnv, ∀ planText : String,
      parsePlan planText = [] → WorkflowA.report env planText = "") := by
  refine ⟨?_, by decide, ?_, ?_, ?_⟩
  · intro planText
    rw [parsePlan, List.countP_eq_length_filter]
  · intro planText hall
    unfold parsePlan
    rw [List.filter_eq_nil_iff]
    intro a ha
    rcases List.mem_map.mp ha with ⟨s, hs, rfl⟩
    rw [hall s hs]
    decide
  · intro env; rfl
  · intro env planText hp
    unfold WorkflowA.report
    rw [hp]
    rfl

/-- C7 witness: the all-whitespace plan text `" ,  , "` parses to the empty
plan and its report is the empty string. -/
theorem c7_witness :
    parsePlan " ,  , " = [] ∧ WorkflowA.report envOk " ,  , " = "" :=
  ⟨c7_parse_total_empty_plan_empty_report.2.2.1 " ,  , " (by decide),
    c7_parse_total_empty_plan_empty_report.2.2.2.2 envOk " ,  , "
      (c7_parse_total_empty_plan_empty_report.2.2.1 " ,  , " (by decide))⟩

/-- C8: the two workflow implementations are divergent, not extensionally
equal: on the plan `deploy:app` variant A reports the unknown operation
explicitly while variant B appends the rendering of the fallen-through
`None` result, so the two runs return different reports; and variant A
dispatches restart with an explicit maximum of 5 retry attempts while
variant B dispatches it with no explicit retry policy. -/
theorem c8_variants_diverge :
    WorkflowA.execStep envOk "deploy:app" = "Skipped unknown operation: deploy:app" ∧
    WorkflowB.execStep envOk "deploy:app" = "None" ∧
    WorkflowA.run envOk (Except.ok "deploy:app") ≠ WorkflowB.run envOk (Except.ok "deploy:app") ∧
    WorkflowA.stepEventOf "restart:cache" =
      StepEvent.call ⟨.containerRestart, some "cache", none, 30, some 5⟩ ∧
    WorkflowB.stepEventOf "restart:cache" =
      StepEvent.call ⟨.containerRestart, some "cache", none, 30, none⟩ := by
  exact ⟨by decide, by decide, by decide, by decide, by decide⟩

/-- C9: segment parsing reads only the first three colon-separated
components — token, first and second parameter — so two segments agreeing on
those (such as one with extra trailing components and its truncation) parse
to the same token and parameters and produce the identical dispatch event:
the extra components are silently discarded. -/
theorem c9_extra_components_discarded (s1 s2 : String)
    (h : (pySplit ':' s1).take 3 = (pySplit ':' s2).take 3) :
    (parseSegment s1).opType = (parseSegment s2).opType ∧
    (parseSegment s1).param1 = (parseSegment s2).param1 ∧
    (parseSegment s1).param2 = (parseSegment s2).param2 ∧
    WorkflowA.stepEventOf s1 = WorkflowA.stepEventOf s2 := by
  have h0 : (pySplit ':' s1)[0]? = (pySplit ':' s2)[0]? := by
    rw [← List.getElem?_take_of_lt (l := pySplit ':' s1) (show 0 < 3 by decide), h,
      List.getElem?_take_of_lt (show 0 < 3 by decide)]
  have h1 : (pySplit ':' s1)[1]? = (pySplit ':' s2)[1]? := by
    rw [← List.getElem?_take_of_lt (l := pySplit ':' s1) (show 1 < 3 by decide), h,
      List.getElem?_take_of_lt (show 1 < 3 by decide)]
  have h2 : (pySplit ':' s1)[2]? = (pySplit ':' s2)[2]? := by
    rw [← List.getElem?_take_of_lt (l := pySplit ':' s1) (show 2 < 3 by decide), h,
      List.getElem?_take_of_lt (show 2 < 3 by decide)]
  have e0 : (parseSegment s1).opType = (parseSegment s2).opType := by
    simp only [parseSegment]
    rw [h0]
  have e1 : (parseSegment s1).param1 = (parseSegment s2).param1 := by
    simp only [parseSegment]
    rw [h1]
  have e2 : (parseSegment s1).param2 = (parseSegment s2).param2 := by
    simp only [parseSegment]
    rw [h2]
  refine ⟨e0, e1, e2, ?_⟩
  show WorkflowA.stepEventCore (parseSegment s1).opType (parseSegment s1).param1
      (parseSegment s1).param2 =
    WorkflowA.stepEventCore (parseSegment s2).opType (parseSegment s2).param1
      (parseSegment s2).param2
  rw [e0, e1, e2]

/-- C9 witness: `logs:api:50:extra` parses and dispatches exactly like
`logs:api:50`. -/
theorem c9_witness :
    (parseSegment "logs:api:50:extra").opType = (parseSegment "logs:api:50").opType ∧
    (parseSegment "logs:api:50:extra").param1 = (parseSegment "logs:api:50").param1 ∧
    (parseSegment "logs:api:50:extra").param2 = (parseSegment "logs:api:50").param2 ∧
    WorkflowA.stepEventOf "logs:api:50:extra" = WorkflowA.stepEventOf "logs:api:50" :=
  c9_extra_components_discarded "logs:api:50:extra" "logs:api:50" (by decide)

/-- C10: when the Docker client's restart call returns without confirming
the container is running (`restart_container` returned `False`), the restart
activity still returns normally — a Success outcome whose text merely
mentions the degraded state — so a successful restart step entry does not
guarantee the container is running: dispatched through the workflow, the
step records the degraded text as an ordinary (non-failure-marked) result
paragraph. -/
theorem c10_restart_degraded_still_success (name : String) :
    InfraMonitor.restart_container_activity name (Except.ok false) =
      Except.ok ("Container '" ++ name ++ "' was restarted but may not be running properly") ∧
    WorkflowB.execStep envRestartDegraded "restart:cache" =
      "Container 'cache' was restarted but may not be running properly" := by
  exact ⟨rfl, by decide⟩
